import Mathlib

/-!
Shallow embedding of `api_solver.py` from captchasio/recaptcha-solver-server.

The embedding covers the parts of `ReCaptchaAPIServer` that the claims are
about: the `results` mapping and its persistence to `results.json`
(`_load_results` / `_save_results`), the `/recaptcha` admission handler
(`process_recaptcha`), the `/result` lookup handler (`get_result`), the
job worker `_solve_recaptcha` (session checkout from `browser_pool`, proxy
selection from `proxies.txt`, the solve attempt and the terminal write),
and a small-step system for the browser pool shared by concurrent workers.

Modelling conventions:
* Python strings are `String`; `str.split(":")`, `str.strip()` and the
  substring test `pat in s` are re-implemented structurally over `List Char`
  so that every proof can be checked by evaluation.
* A value of the `results` dict is `PyVal`: either a bare Python string or
  the two-key dict `{"value": ..., "elapsed_time": ...}` — the only dict
  shape this program ever stores.  The Python membership test
  `"CAPTCHA_FAIL" in result` is substring search on a string but KEY
  membership on a dict, exactly as in Python.
* The Python dict is an association list with insert-or-update semantics.
* `time.time()` readings are rationals; the worker is parameterized by the
  clock values it reads and by the outcome of the external solver call.
* `random.choice` is modelled by a uniformly drawn index `ix`; the chosen
  element is the candidate at `ix % length`, so a uniform index yields a
  uniform choice over the candidate list.
* `str(uuid.uuid4())` is modelled by passing the generated identifier as an
  argument to the admission handler.
-/

namespace ApiSolver

/-- Python whitespace for `str.strip()`: space, tab, newline, carriage
return, vertical tab, form feed. -/
def isPySpace (c : Char) : Bool :=
  c = ' ' || c = '\t' || c = '\n' || c = '\r' || c = '\x0b' || c = '\x0c'

/-- Python `str.strip()` on the character list: drop whitespace from both
ends. -/
def pyStripChars (cs : List Char) : List Char :=
  ((cs.dropWhile isPySpace).reverse.dropWhile isPySpace).reverse

/-- Python `line.strip()` (used for the lines of `proxies.txt`). -/
def pyStrip (s : String) : String :=
  String.mk (pyStripChars s.data)

/-- Python `str.split(":")` on a character list.  On the empty input it
returns one empty group, as Python does: `"".split(":") == [""]`. -/
def splitCharsOnColon : List Char → List (List Char)
  | [] => [[]]
  | c :: rest =>
    if c = ':' then [] :: splitCharsOnColon rest
    else
      match splitCharsOnColon rest with
      | [] => [[c]]
      | g :: gs => (c :: g) :: gs

/-- Python `proxy.split(':')` (line 162 of `api_solver.py`). -/
def pySplitColon (s : String) : List String :=
  (splitCharsOnColon s.data).map String.mk

/-- Substring occurrence test: Python `pat in s` for strings, on character
lists.  The empty pattern occurs in every string, as in Python. -/
def containsSubstring (pat : List Char) : List Char → Bool
  | [] => pat.isEmpty
  | c :: rest => pat.isPrefixOf (c :: rest) || containsSubstring pat rest

/-- A value of `self.results`.  The program stores exactly two shapes:
the bare pending string `"CAPTCHA_NOT_READY"` (line 225) and the dict
`{"value": v, "elapsed_time": t}` (lines 195 and 199). -/
inductive PyVal where
  | pyStr (s : String)
  | pyDict (value : String) (elapsed : ℚ)
  deriving DecidableEq

/-- Python `"CAPTCHA_FAIL" in result` (line 250).  On a string this is a
substring test; on a dict it asks whether `"CAPTCHA_FAIL"` is one of the
KEYS, which for the stored dicts (keys `"value"` and `"elapsed_time"`) is
always false. -/
def pyInCaptchaFail : PyVal → Bool
  | .pyStr s => containsSubstring "CAPTCHA_FAIL".data s.data
  | .pyDict _ _ => ("CAPTCHA_FAIL" == "value") || ("CAPTCHA_FAIL" == "elapsed_time")

/-- The `self.results` mapping: a Python dict from task id to stored value,
embedded as an association list in insertion order. -/
abbrev ResultsDict := List (String × PyVal)

/-- Python dict lookup `d[k]` / `k in d`, as an option. -/
def dictGet (d : ResultsDict) (k : String) : Option PyVal :=
  match d with
  | [] => none
  | (k', v) :: rest => if k' = k then some v else dictGet rest k

/-- Python dict assignment `d[k] = v`: update in place if the key exists,
else append. -/
def dictSet (d : ResultsDict) (k : String) (v : PyVal) : ResultsDict :=
  match d with
  | [] => [(k, v)]
  | (k', v') :: rest => if k' = k then (k', v) :: rest else (k', v') :: dictSet rest k v

/-- Python truthiness of an optional request argument
(`request.args.get(...)`): `None` and the empty string are falsy. -/
def pyFalsyStr : Option String → Bool
  | none => true
  | some s => s == ""

/-- The mutable server state the claims are about: the in-memory `results`
dict, the content of the durable file `results.json`, and the
`browser_pool` queue of session-handle indices (`get` takes the head,
`put` appends). -/
structure ServerState where
  results : ResultsDict
  resultsFile : ResultsDict
  browser_pool : List Nat
  deriving DecidableEq

/-- Response of `GET /result`. -/
inductive GetResultResponse where
  | invalidTask
  | stored (v : PyVal) (code : Nat)
  deriving DecidableEq

/-- `get_result` (lines 240-253).  A missing or empty `id`, or an unknown
id, yields the 400 error; otherwise the stored value is returned with
status 422 when `"CAPTCHA_FAIL" in result` and 200 otherwise. -/
def get_result (results : ResultsDict) (idArg : Option String) : GetResultResponse :=
  match idArg with
  | none => .invalidTask
  | some tid =>
    if tid = "" then .invalidTask
    else
      match dictGet results tid with
      | none => .invalidTask
      | some v => .stored v (if pyInCaptchaFail v then 422 else 200)

/-- The five optional query parameters of `/recaptcha`; read by
`process_recaptcha` (lines 212-216) and passed to the worker, which never
uses them. -/
structure OptParams where
  action : Option String
  min_score : Option String
  invisible : Option String
  enterprise : Option String
  data_s : Option String
  deriving DecidableEq

/-- Response of `GET /recaptcha`. -/
inductive AdmitResponse where
  | missingParams
  | accepted (task_id : String)
  deriving DecidableEq

/-- `process_recaptcha` (lines 208-238).  `task_id` is the freshly
generated `str(uuid.uuid4())`.  When `url` or `sitekey` is falsy the 400
error is returned and nothing is mutated; otherwise the pending sentinel
is stored under `task_id` and 202 is returned.  The worker itself is
spawned with `asyncio.create_task` and modelled separately by
`_solve_recaptcha`; the durable file is not touched here. -/
def process_recaptcha (st : ServerState) (urlArg sitekeyArg : Option String)
    (opts : OptParams) (task_id : String) : ServerState × AdmitResponse :=
  if pyFalsyStr urlArg || pyFalsyStr sitekeyArg then
    (st, .missingParams)
  else
    ({ st with results := dictSet st.results task_id (.pyStr "CAPTCHA_NOT_READY") },
     .accepted task_id)

/-- Rounding to the nearest integer, ties to even, as Python `round` does
on an exact value. -/
def pyRoundInt (x : ℚ) : ℤ :=
  if x - ⌊x⌋ < 1 / 2 then ⌊x⌋
  else if 1 / 2 < x - ⌊x⌋ then ⌊x⌋ + 1
  else if ⌊x⌋ % 2 = 0 then ⌊x⌋ else ⌊x⌋ + 1

/-- Python `round(x, 3)` on an exact rational: round to a multiple of
1/1000, ties to even (the values the claims exercise are not ties, so the
binary-float representation subtleties of CPython are immaterial). -/
def pyRound3 (q : ℚ) : ℚ :=
  (pyRoundInt (q * 1000) : ℚ) / 1000

/-- Candidate proxies: `[line.strip() for line in proxy_file if line.strip()]`
(line 157). -/
def candidateProxies (lines : List String) : List String :=
  (lines.map pyStrip).filter (fun l => l != "")

/-- Python `random.choice(xs)`, with the randomness supplied as an index
`ix`: the element at `ix % xs.length`, `none` on the empty list (the code
guards with `if proxies else None`, line 159). -/
def randomChoice (xs : List String) (ix : Nat) : Option String :=
  match xs with
  | [] => none
  | x :: rest => some ((x :: rest).get ⟨ix % (x :: rest).length, Nat.mod_lt ix (Nat.succ_pos rest.length)⟩)

/-- The proxy configuration handed to `browser.new_context` (lines 161-173). -/
inductive ProxyConfig where
  | noProxy
  | serverOnly (server : String)
  | withCreds (server user pass : String)
  deriving DecidableEq

/-- Lines 161-173: no proxy selected means a plain context; a selected
line splitting on `:` into exactly 3 fields is passed whole as the server,
exactly 5 fields become server plus username and password, and any other
field count raises `ValueError("Invalid proxy format")` (line 169). -/
def configureContext (proxy : Option String) : Except String ProxyConfig :=
  match proxy with
  | none => .ok .noProxy
  | some p =>
    match pySplitColon p with
    | [_, _, _] => .ok (.serverOnly p)
    | [scheme, ip, port, user, pass] =>
        .ok (.withCreds (scheme ++ "://" ++ ip ++ ":" ++ port) user pass)
    | _ => .error "Invalid proxy format"

/-- Whether an `Except` is a success. -/
def exceptIsOk {ε α : Type} : Except ε α → Bool
  | .ok _ => true
  | .error _ => false

/-- The process-start configuration relevant to the worker. -/
structure ServerConfig where
  proxy_support : Bool
  thread_count : Nat
  deriving DecidableEq

/-- The external inputs of one `_solve_recaptcha` run: the content of
`proxies.txt`, the index drawn by `random.choice`, the `time.time()`
readings the code takes (at line 177, inside the `async with` at line 192,
and in the `except` handler at line 198), the wall-clock instant at which
the external `solver.solve_recaptcha` call returns (never read by the
code), and that call's outcome. -/
structure SolverEnv where
  proxyFileLines : List String
  choiceIx : Nat
  startTime : ℚ
  preSolveTime : ℚ
  failTime : ℚ
  solveEndTime : ℚ
  solverResult : Except String String

/-- How one worker coroutine ended. -/
inductive WorkerExit where
  | completed
  | raisedValueError
  deriving DecidableEq

/-- The proxy the worker selects (lines 153-159): only when proxy support
is on, one uniformly chosen candidate line of `proxies.txt`, or `none`
when the candidate list is empty. -/
def proxyChoiceOf (cfg : ServerConfig) (env : SolverEnv) : Option String :=
  if cfg.proxy_support then randomChoice (candidateProxies env.proxyFileLines) env.choiceIx
  else none

/-- `_solve_recaptcha` (lines 147-206).  `none` means the initial
`await self.browser_pool.get()` suspends because the pool is empty (no
other job releases in this single-run model).  Otherwise the head handle
is checked out; the proxy block (lines 153-173) runs BEFORE the
`try`/`finally`, so `raise ValueError("Invalid proxy format")` ends the
coroutine with neither a terminal result write nor a release of the
handle.  Inside the `try`, `elapsed_time` for the success path is read at
line 192, before `solver.solve_recaptcha` runs; on success the whole
mapping is saved to `results.json` (line 196), on failure the mapping is
mutated (line 199) but NOT saved; the `finally` closes the context and
puts the handle back. -/
def _solve_recaptcha (cfg : ServerConfig) (st : ServerState) (task_id url sitekey : String)
    (opts : OptParams) (env : SolverEnv) : Option (ServerState × WorkerExit) :=
  match st.browser_pool with
  | [] => none
  | handle :: poolRest =>
    match configureContext (proxyChoiceOf cfg env) with
    | .error _ =>
        some ({ st with browser_pool := poolRest }, .raisedValueError)
    | .ok _ =>
        match env.solverResult with
        | .ok token =>
            let elapsed := pyRound3 (env.preSolveTime - env.startTime)
            let results' := dictSet st.results task_id (.pyDict token elapsed)
            some ({ results := results', resultsFile := results',
                    browser_pool := poolRest ++ [handle] }, .completed)
        | .error _ =>
            let elapsed := pyRound3 (env.failTime - env.startTime)
            let results' := dictSet st.results task_id (.pyDict "CAPTCHA_FAIL" elapsed)
            some ({ results := results', resultsFile := st.resultsFile,
                    browser_pool := poolRest ++ [handle] }, .completed)

/-- The phase of one spawned worker with respect to the pool: not yet past
`browser_pool.get()`; holding a handle; ended by the pre-`try` `ValueError`
while holding a handle (the handle is never put back); or completed with
the `finally` block executed. -/
inductive JobState where
  | waiting
  | holding (h : Nat)
  | leaked (h : Nat)
  | finished
  deriving DecidableEq

/-- The handle a job currently keeps away from the pool, if any; a leaked
handle is still away from the pool. -/
def holder : JobState → Option Nat
  | .holding h => some h
  | .leaked h => some h
  | _ => none

/-- The handle owned by a job that is still in flight (a leaked handle has
no in-flight owner: that worker already terminated). -/
def inflightHolder : JobState → Option Nat
  | .holding h => some h
  | _ => none

/-- Pool-level state shared by concurrent workers: the queue of available
handles and the phase of each spawned job. -/
structure PoolSystem where
  pool : List Nat
  jobs : List JobState
  deriving DecidableEq

/-- The handle indices created by `_initialize_browser` (line 139 puts
`(_+1, browser)` for `_` in `range(thread_count)`): `1, ..., n`. -/
def initialHandles (n : Nat) : List Nat :=
  List.range' 1 n

/-- Startup state: all `n` handles in the pool, `k` admitted jobs not yet
past `browser_pool.get()`. -/
def initPoolSystem (n k : Nat) : PoolSystem :=
  ⟨initialHandles n, List.replicate k .waiting⟩

/-- Whether the proxy block (lines 153-169) can end the worker with the
pre-`try` `ValueError`: proxy support is on and some candidate line of
`proxies.txt` has a colon-field count other than 3 or 5. -/
def proxyStepCanRaise (cfg : ServerConfig) (lines : List String) : Bool :=
  cfg.proxy_support &&
    (candidateProxies lines).any (fun p => !(exceptIsOk (configureContext (some p))))

/-- One scheduler step of the pool system.  `acquire` is
`await self.browser_pool.get()` (line 151) completing for a waiting job;
`crash` is the `ValueError` of line 169 ending a holding job with no
release; `finish` is the `finally` block (lines 201-206) returning the
handle — reached on both solver success and solver failure. -/
inductive PoolStep (cfg : ServerConfig) (lines : List String) : PoolSystem → PoolSystem → Prop
  | acquire (j h : Nat) (pool' : List Nat) (jobs : List JobState)
      (hj : jobs.get? j = some .waiting) :
      PoolStep cfg lines ⟨h :: pool', jobs⟩ ⟨pool', jobs.set j (.holding h)⟩
  | crash (j h : Nat) (pool : List Nat) (jobs : List JobState)
      (hj : jobs.get? j = some (.holding h))
      (hraise : proxyStepCanRaise cfg lines = true) :
      PoolStep cfg lines ⟨pool, jobs⟩ ⟨pool, jobs.set j (.leaked h)⟩
  | finish (j h : Nat) (pool : List Nat) (jobs : List JobState)
      (hj : jobs.get? j = some (.holding h)) :
      PoolStep cfg lines ⟨pool, jobs⟩ ⟨pool ++ [h], jobs.set j .finished⟩

/-- States reachable by the pool system. -/
def PoolReachable (cfg : ServerConfig) (lines : List String) (s₀ s : PoolSystem) : Prop :=
  Relation.ReflTransGen (PoolStep cfg lines) s₀ s

/-! General lemmas shared by the claim theorems. -/

theorem dictGet_dictSet (d : ResultsDict) (k : String) (v : PyVal) :
    dictGet (dictSet d k v) k = some v := by
  induction d with
  | nil => simp [dictGet, dictSet]
  | cons kv rest ih =>
    obtain ⟨k', v'⟩ := kv
    by_cases hk : k' = k <;> simp [dictGet, dictSet, hk, ih]

theorem pyInCaptchaFail_pending : pyInCaptchaFail (.pyStr "CAPTCHA_NOT_READY") = false := by
  decide

theorem filterMap_perm_erase {α β : Type} (f : α → Option β) (l : List α) :
    ∀ (j : Nat) (a : α), l.get? j = some a →
      (l.filterMap f).Perm ((f a).toList ++ (l.eraseIdx j).filterMap f) := by
  induction l with
  | nil => intro j a h; simp at h
  | cons x t ih =>
    intro j a h
    cases j with
    | zero =>
      rw [List.get?_cons_zero] at h
      injection h with h
      subst h
      cases hfx : f x with
      | none => simp [List.eraseIdx, List.filterMap_cons, hfx]
      | some b => simp [List.eraseIdx, List.filterMap_cons, hfx]
    | succ j =>
      rw [List.get?_cons_succ] at h
      have hperm := ih j a h
      cases hfx : f x with
      | none => simpa [List.eraseIdx, List.filterMap_cons, hfx] using hperm
      | some b =>
        simp only [List.eraseIdx, List.filterMap_cons, hfx]
        exact (hperm.cons b).trans List.perm_middle.symm

theorem eraseIdx_set_self {α : Type} (l : List α) (j : Nat) (b : α) :
    (l.set j b).eraseIdx j = l.eraseIdx j := by
  induction l generalizing j with
  | nil => simp [List.set]
  | cons x t ih => cases j <;> simp [List.set, List.eraseIdx, ih]

theorem get?_set_same {α : Type} (l : List α) (j : Nat) (b : α) (hj : j < l.length) :
    (l.set j b).get? j = some b := by
  induction l generalizing j with
  | nil => simp at hj
  | cons x t ih =>
    cases j with
    | zero => simp [List.set]
    | succ j =>
      rw [List.set]
      rw [List.get?_cons_succ]
      exact ih j (by simpa using hj)

theorem mem_eraseIdx_of_get?_ne {α : Type} (l : List α) :
    ∀ (j i : Nat) (b : α), i ≠ j → l.get? i = some b → b ∈ l.eraseIdx j := by
  induction l with
  | nil => intro j i b _ h; simp at h
  | cons x t ih =>
    intro j i b hne h
    cases j with
    | zero =>
      cases i with
      | zero => exact absurd rfl hne
      | succ i =>
        rw [List.get?_cons_succ] at h
        simpa [List.eraseIdx] using List.get?_mem h
    | succ j =>
      cases i with
      | zero =>
        rw [List.get?_cons_zero] at h
        injection h with h
        subst h
        simp [List.eraseIdx]
      | succ i =>
        rw [List.get?_cons_succ] at h
        have hmem := ih j i b (fun hc => hne (by rw [hc])) h
        simp [List.eraseIdx, hmem]

theorem replicate_waiting_filterMap (k : Nat) :
    (List.replicate k JobState.waiting).filterMap holder = [] := by
  induction k with
  | zero => rfl
  | succ k ih => simp [List.replicate, List.filterMap_cons, holder, ih]

/-- Each pool-system step preserves the multiset of handles that is split
between the pool and the jobs that keep one away from it. -/
theorem poolStep_perm {cfg : ServerConfig} {lines : List String} {s s' : PoolSystem}
    (hstep : PoolStep cfg lines s s') :
    (s'.pool ++ s'.jobs.filterMap holder).Perm (s.pool ++ s.jobs.filterMap holder) := by
  cases hstep with
  | acquire j h pool' jobs hj =>
    have hlt : j < jobs.length := (List.get?_eq_some.mp hj).1
    have h1 : ((jobs.set j (.holding h)).filterMap holder).Perm
        (h :: (jobs.eraseIdx j).filterMap holder) := by
      have hp := filterMap_perm_erase holder (jobs.set j (.holding h)) j (.holding h)
        (get?_set_same jobs j _ hlt)
      simpa [eraseIdx_set_self, holder] using hp
    have h2 : (jobs.filterMap holder).Perm ((jobs.eraseIdx j).filterMap holder) := by
      have hp := filterMap_perm_erase holder jobs j .waiting hj
      simpa [holder] using hp
    refine (h1.append_left pool').trans ?_
    refine (List.perm_middle).trans ?_
    exact (h2.symm.append_left pool').cons h
  | crash j h pool jobs hj hraise =>
    have hlt : j < jobs.length := (List.get?_eq_some.mp hj).1
    have h1 : ((jobs.set j (.leaked h)).filterMap holder).Perm
        (h :: (jobs.eraseIdx j).filterMap holder) := by
      have hp := filterMap_perm_erase holder (jobs.set j (.leaked h)) j (.leaked h)
        (get?_set_same jobs j _ hlt)
      simpa [eraseIdx_set_self, holder] using hp
    have h2 : (jobs.filterMap holder).Perm (h :: (jobs.eraseIdx j).filterMap holder) := by
      have hp := filterMap_perm_erase holder jobs j (.holding h) hj
      simpa [holder] using hp
    exact (h1.append_left pool).trans (h2.symm.append_left pool)
  | finish j h pool jobs hj =>
    have hlt : j < jobs.length := (List.get?_eq_some.mp hj).1
    have h1 : ((jobs.set j .finished).filterMap holder).Perm
        ((jobs.eraseIdx j).filterMap holder) := by
      have hp := filterMap_perm_erase holder (jobs.set j .finished) j .finished
        (get?_set_same jobs j _ hlt)
      simpa [eraseIdx_set_self, holder] using hp
    have h2 : (jobs.filterMap holder).Perm (h :: (jobs.eraseIdx j).filterMap holder) := by
      have hp := filterMap_perm_erase holder jobs j (.holding h) hj
      simpa [holder] using hp
    refine (h1.append_left (pool ++ [h])).trans ?_
    rw [List.append_assoc]
    exact (h2.symm.append_left pool)

/-- Every reachable pool-system state splits the initial handles between
the pool and the jobs keeping one away from it. -/
theorem poolReachable_perm {cfg : ServerConfig} {lines : List String} {n k : Nat}
    {s : PoolSystem} (hr : PoolReachable cfg lines (initPoolSystem n k) s) :
    (s.pool ++ s.jobs.filterMap holder).Perm (initialHandles n) := by
  induction hr with
  | refl => simp [initPoolSystem, replicate_waiting_filterMap]
  | tail _ hstep ih => exact (poolStep_perm hstep).trans ih

/-! Claim theorems. -/

/-- C1: `GET /result` returns 400 for an unknown or missing id and 200
with the stored token and elapsed time for a success — but for a stored
failure outcome it returns 200, NOT the claimed 422: the stored failure is
the dict `{"value": "CAPTCHA_FAIL", "elapsed_time": t}` and the check
`"CAPTCHA_FAIL" in result` is key membership on a dict, which is false for
keys `"value"`/`"elapsed_time"`.  This theorem evaluates `get_result` at a
stored failure outcome and exhibits the divergence. -/
theorem get_result_failure_not_422 :
    get_result [("J", .pyDict "CAPTCHA_FAIL" 1)] (some "J")
      = .stored (.pyDict "CAPTCHA_FAIL" 1) 200
  ∧ get_result [("J", .pyDict "CAPTCHA_FAIL" 1)] (some "J")
      ≠ .stored (.pyDict "CAPTCHA_FAIL" 1) 422
  ∧ get_result [] (some "unknown") = .invalidTask
  ∧ get_result [("K", .pyDict "tok-xyz" (5/2))] none = .invalidTask
  ∧ get_result [("K", .pyDict "tok-xyz" (5/2))] (some "K")
      = .stored (.pyDict "tok-xyz" (5/2)) 200 := by
  refine ⟨rfl, ?_, rfl, rfl, rfl⟩
  intro h
  rw [show get_result [("J", PyVal.pyDict "CAPTCHA_FAIL" 1)] (some "J")
        = .stored (.pyDict "CAPTCHA_FAIL" 1) 200 from rfl] at h
  simp at h

/-- C2: the claim that the checked-out handle is returned to the pool on
every terminating worker run fails: when the selected proxy line is
malformed, `raise ValueError` (line 169) fires BEFORE the `try`/`finally`,
the coroutine ends, and the handle (here handle 1, the whole pool) is
never put back — the final pool is empty. -/
theorem solve_bad_proxy_leaks_handle :
    _solve_recaptcha ⟨true, 1⟩ ⟨[("T1", .pyStr "CAPTCHA_NOT_READY")], [], [1]⟩ "T1"
        "https://example.test" "abc123" ⟨none, none, none, none, none⟩
        ⟨["http:1.2.3.4:8080:user"], 0, 0, 0, 0, 0, .ok "tok"⟩
      = some (⟨[("T1", .pyStr "CAPTCHA_NOT_READY")], [], []⟩, .raisedValueError)
  ∧ (1 : Nat) ∉ ([] : List Nat) := ⟨rfl, by decide⟩

/-- C4: the claim that a malformed proxy line fails only the requesting
job — its entry reaching the `Failed` terminal state with the pool
unaffected — fails: the `ValueError` fires before the `try`, so the
`except` handler that would write `CAPTCHA_FAIL` never runs (the entry
stays `"CAPTCHA_NOT_READY"` forever) and the pool permanently loses the
checked-out handle. -/
theorem bad_proxy_job_stays_pending :
    _solve_recaptcha ⟨true, 2⟩ ⟨[("T4", .pyStr "CAPTCHA_NOT_READY")], [], [2]⟩ "T4"
        "https://example.test" "sitekey-4" ⟨none, none, none, none, none⟩
        ⟨["socks5:9.9.9.9:1080:user"], 5, 0, 0, 0, 0, .ok "tok"⟩
      = some (⟨[("T4", .pyStr "CAPTCHA_NOT_READY")], [], []⟩, .raisedValueError)
  ∧ (∀ q : ℚ, (PyVal.pyStr "CAPTCHA_NOT_READY") ≠ .pyDict "CAPTCHA_FAIL" q)
  ∧ ([] : List Nat) ≠ [2] := by
  refine ⟨rfl, ?_, by decide⟩
  intro q h
  cases h

/-- C6: the claim that the stored elapsed time covers the solve step
fails: on success `elapsed_time` is computed at line 192, BEFORE
`solver.solve_recaptcha` runs, so it records only the setup time.  Here
setup ends 0.1s after the clock starts and the solver returns at 2.5s;
the stored elapsed time is 0.1, not 2.5.  The last conjunct shows the
whole run result does not depend on when the solver call completes. -/
theorem success_elapsed_excludes_solve :
    _solve_recaptcha ⟨false, 1⟩ ⟨[("T6", .pyStr "CAPTCHA_NOT_READY")], [], [1]⟩ "T6"
        "https://example.test" "abc123" ⟨none, none, none, none, none⟩
        ⟨[], 0, 0, 1/10, 0, 5/2, .ok "tok-xyz"⟩
      = some (⟨[("T6", .pyDict "tok-xyz" (pyRound3 (1/10 - 0)))],
              [("T6", .pyDict "tok-xyz" (pyRound3 (1/10 - 0)))], [1]⟩, .completed)
  ∧ pyRound3 ((1 : ℚ)/10 - 0) = 1/10
  ∧ pyRound3 ((5 : ℚ)/2 - 0) = 5/2
  ∧ ((1 : ℚ)/10) ≠ 5/2
  ∧ (∀ (cfg : ServerConfig) (st : ServerState) (a b c : String) (o : OptParams)
       (env : SolverEnv) (t : ℚ),
       _solve_recaptcha cfg st a b c o env
         = _solve_recaptcha cfg st a b c o { env with solveEndTime := t }) := by
  refine ⟨rfl, ?_, ?_, by norm_num, fun _ _ _ _ _ _ _ _ => rfl⟩ <;>
    norm_num [pyRound3, pyRoundInt]

/-- C9: the five optional `/recaptcha` parameters (`action`, `min_score`,
`invisible`, `enterprise`, `data-s`) are read and passed through but never
used: two admissions and two worker runs differing only in them produce
identical responses, state mutations and outcomes. -/
theorem optional_params_no_effect (st : ServerState) (cfg : ServerConfig)
    (urlArg skArg : Option String) (o₁ o₂ : OptParams) (tid url sk : String)
    (env : SolverEnv) :
    process_recaptcha st urlArg skArg o₁ tid = process_recaptcha st urlArg skArg o₂ tid
  ∧ _solve_recaptcha cfg st tid url sk o₁ env = _solve_recaptcha cfg st tid url sk o₂ env :=
  ⟨rfl, rfl⟩

/-- C3 counterexample: after the failure-recording mutation returns, the
durable file does NOT hold the whole mapping — the `except` handler
(line 199) mutates `self.results` without calling `_save_results()` — and
the pending-creating mutation of `process_recaptcha` (line 225) also
leaves the file untouched.  Here both mutations leave an empty file while
the mapping is non-empty. -/
theorem set_failed_not_persisted_cex :
    _solve_recaptcha ⟨false, 1⟩ ⟨[("F", .pyStr "CAPTCHA_NOT_READY")], [], [1]⟩ "F"
        "https://example.test" "abc123" ⟨none, none, none, none, none⟩
        ⟨[], 0, 0, 0, 2, 2, .error "solver timeout"⟩
      = some (⟨[("F", .pyDict "CAPTCHA_FAIL" (pyRound3 (2 - 0)))], [], [1]⟩, .completed)
  ∧ ([] : ResultsDict) ≠ [("F", .pyDict "CAPTCHA_FAIL" (pyRound3 (2 - 0)))]
  ∧ process_recaptcha ⟨[], [], []⟩ (some "https://example.test") (some "abc123")
        ⟨none, none, none, none, none⟩ "P"
      = (⟨[("P", .pyStr "CAPTCHA_NOT_READY")], [], []⟩, .accepted "P")
  ∧ ([] : ResultsDict) ≠ [("P", .pyStr "CAPTCHA_NOT_READY")] := by
  refine ⟨rfl, by simp, by decide, by simp⟩

/-- C3 (amended): only the success mutation persists the whole mapping to
`results.json` synchronously before returning; the pending-creating
mutation of admission and the failure-recording mutation leave the durable
file untouched (the in-memory mapping alone is mutated). -/
theorem persistence_success_only (cfg : ServerConfig) (st : ServerState)
    (tid url sk : String) (opts : OptParams) (env : SolverEnv)
    (urlArg skArg : Option String) (aid : String)
    (handle : Nat) (poolRest : List Nat)
    (hpool : st.browser_pool = handle :: poolRest) :
    ((process_recaptcha st urlArg skArg opts aid).1.resultsFile = st.resultsFile)
  ∧ (∀ token, env.solverResult = .ok token →
       exceptIsOk (configureContext (proxyChoiceOf cfg env)) = true →
       _solve_recaptcha cfg st tid url sk opts env
         = some (⟨dictSet st.results tid
                    (.pyDict token (pyRound3 (env.preSolveTime - env.startTime))),
                  dictSet st.results tid
                    (.pyDict token (pyRound3 (env.preSolveTime - env.startTime))),
                  poolRest ++ [handle]⟩, .completed))
  ∧ (∀ msg, env.solverResult = .error msg →
       exceptIsOk (configureContext (proxyChoiceOf cfg env)) = true →
       _solve_recaptcha cfg st tid url sk opts env
         = some (⟨dictSet st.results tid
                    (.pyDict "CAPTCHA_FAIL" (pyRound3 (env.failTime - env.startTime))),
                  st.resultsFile,
                  poolRest ++ [handle]⟩, .completed)) := by
  refine ⟨?_, ?_, ?_⟩
  · simp only [process_recaptcha]
    split <;> rfl
  · intro token hok hcfg
    unfold _solve_recaptcha
    rw [hpool]
    cases hc : configureContext (proxyChoiceOf cfg env) with
    | error e => rw [hc] at hcfg; simp [exceptIsOk] at hcfg
    | ok c => rw [hok]
  · intro msg herr hcfg
    unfold _solve_recaptcha
    rw [hpool]
    cases hc : configureContext (proxyChoiceOf cfg env) with
    | error e => rw [hc] at hcfg; simp [exceptIsOk] at hcfg
    | ok c => rw [herr]

/-- C3 witness: a concrete successful run through
`persistence_success_only`, synchronously persisting the whole mapping. -/
theorem persistence_success_only_witness :
    (⟨[("W", .pyStr "CAPTCHA_NOT_READY")], [("old", .pyStr "x")], [3]⟩
        : ServerState).browser_pool = 3 :: []
  ∧ _solve_recaptcha ⟨false, 1⟩
        ⟨[("W", .pyStr "CAPTCHA_NOT_READY")], [("old", .pyStr "x")], [3]⟩
        "W" "https://example.test" "abc123" ⟨none, none, none, none, none⟩
        ⟨[], 0, 0, 1, 0, 2, .ok "tok"⟩
      = some (⟨dictSet [("W", .pyStr "CAPTCHA_NOT_READY")] "W"
                  (.pyDict "tok" (pyRound3 ((1 : ℚ) - 0))),
               dictSet [("W", .pyStr "CAPTCHA_NOT_READY")] "W"
                  (.pyDict "tok" (pyRound3 ((1 : ℚ) - 0))),
               [] ++ [3]⟩, .completed) :=
  ⟨rfl, (persistence_success_only ⟨false, 1⟩
      ⟨[("W", .pyStr "CAPTCHA_NOT_READY")], [("old", .pyStr "x")], [3]⟩
      "W" "https://example.test" "abc123" ⟨none, none, none, none, none⟩
      ⟨[], 0, 0, 1, 0, 2, .ok "tok"⟩ none none "a" 3 [] rfl).2.1 "tok" rfl (by decide)⟩

/-- C7 counterexample: a request in which both `url` and `sitekey` are
PRESENT but `url` is the empty string is rejected with the validation
error and no job is created, though the claim promises admission for every
request with both parameters present: Python `not url` treats a present
empty value like a missing one. -/
theorem empty_params_rejected_cex :
    process_recaptcha ⟨[], [], []⟩ (some "") (some "abc123")
        ⟨none, none, none, none, none⟩ "tid-1"
      = (⟨[], [], []⟩, .missingParams)
  ∧ (AdmitResponse.missingParams ≠ .accepted "tid-1") := ⟨by decide, by decide⟩

/-- C7 (amended): a request whose `url` or `sitekey` is missing OR empty
gets the 400 validation error and creates no job (the state is unchanged);
a request with both present and non-empty registers the pending entry
under the fresh identifier and gets 202 with that identifier. -/
theorem admission_validation (st : ServerState) (urlArg skArg : Option String)
    (opts : OptParams) (tid : String) :
    ((urlArg = none ∨ urlArg = some "" ∨ skArg = none ∨ skArg = some "") →
       process_recaptcha st urlArg skArg opts tid = (st, .missingParams))
  ∧ (∀ u k, urlArg = some u → skArg = some k → u ≠ "" → k ≠ "" →
       process_recaptcha st urlArg skArg opts tid
         = ({ st with results := dictSet st.results tid (.pyStr "CAPTCHA_NOT_READY") },
            .accepted tid)) := by
  constructor
  · intro h
    have hcond : (pyFalsyStr urlArg || pyFalsyStr skArg) = true := by
      rcases h with h | h | h | h <;> subst h <;> simp [pyFalsyStr]
    simp [process_recaptcha, hcond]
  · intro u k hu hk hu' hk'
    subst hu; subst hk
    have hcond : (pyFalsyStr (some u) || pyFalsyStr (some k)) = false := by
      simp [pyFalsyStr, hu', hk']
    simp [process_recaptcha, hcond]

/-- C7 witness: a concrete well-formed admission through
`admission_validation`. -/
theorem admission_validation_witness :
    process_recaptcha ⟨[], [], [7]⟩ (some "https://example.test") (some "abc123")
        ⟨none, none, none, none, none⟩ "T"
      = (⟨dictSet [] "T" (.pyStr "CAPTCHA_NOT_READY"), [], [7]⟩, .accepted "T") :=
  (admission_validation ⟨[], [], [7]⟩ (some "https://example.test") (some "abc123")
      ⟨none, none, none, none, none⟩ "T").2 "https://example.test" "abc123" rfl rfl
      (by decide) (by decide)

/-- C10: admission stores the BARE string `"CAPTCHA_NOT_READY"` (not a
structured dict) under the fresh identifier, and `GET /result` for that
identifier returns exactly that stored string with status 200 (the
substring check `"CAPTCHA_FAIL" in "CAPTCHA_NOT_READY"` is false). -/
theorem pending_sentinel_roundtrip (st : ServerState) (u k tid : String)
    (opts : OptParams) (hu : u ≠ "") (hk : k ≠ "") (htid : tid ≠ "") :
    (process_recaptcha st (some u) (some k) opts tid).2 = .accepted tid
  ∧ dictGet (process_recaptcha st (some u) (some k) opts tid).1.results tid
      = some (.pyStr "CAPTCHA_NOT_READY")
  ∧ get_result (process_recaptcha st (some u) (some k) opts tid).1.results (some tid)
      = .stored (.pyStr "CAPTCHA_NOT_READY") 200 := by
  have hcond : (pyFalsyStr (some u) || pyFalsyStr (some k)) = false := by
    simp [pyFalsyStr, hu, hk]
  have hproc : process_recaptcha st (some u) (some k) opts tid
      = ({ st with results := dictSet st.results tid (.pyStr "CAPTCHA_NOT_READY") },
         .accepted tid) := by
    simp [process_recaptcha, hcond]
  rw [hproc]
  refine ⟨rfl, dictGet_dictSet st.results tid _, ?_⟩
  simp only [get_result, htid, if_false, dictGet_dictSet, pyInCaptchaFail_pending]
  simp [htid]

/-- C10 witness: a concrete admission and poll through
`pending_sentinel_roundtrip`. -/
theorem pending_sentinel_roundtrip_witness :
    (process_recaptcha ⟨[], [], []⟩ (some "https://example.test") (some "abc123")
        ⟨none, none, none, none, none⟩ "T").2 = .accepted "T"
  ∧ dictGet (process_recaptcha ⟨[], [], []⟩ (some "https://example.test") (some "abc123")
        ⟨none, none, none, none, none⟩ "T").1.results "T"
      = some (.pyStr "CAPTCHA_NOT_READY")
  ∧ get_result (process_recaptcha ⟨[], [], []⟩ (some "https://example.test")
        (some "abc123") ⟨none, none, none, none, none⟩ "T").1.results (some "T")
      = .stored (.pyStr "CAPTCHA_NOT_READY") 200 :=
  pending_sentinel_roundtrip ⟨[], [], []⟩ "https://example.test" "abc123" "T"
    ⟨none, none, none, none, none⟩ (by decide) (by decide) (by decide)

/-- C8: proxy selection is `none` exactly on an empty candidate list
(non-blank stripped lines) and otherwise yields the candidate at the
uniformly drawn index, so a uniform index gives a uniform choice; parsing
accepts exactly the 3-field form (the whole line as the server, no
credentials) and the 5-field form (server rebuilt from the first three
fields, plus username and password) and rejects every other field count
with `ValueError("Invalid proxy format")`. -/
theorem proxy_select_and_parse (lines : List String) (ix : Nat) (p : String) :
    randomChoice (candidateProxies lines) ix
      = (candidateProxies lines).get? (ix % (candidateProxies lines).length)
  ∧ (candidateProxies lines = [] → randomChoice (candidateProxies lines) ix = none)
  ∧ ((pySplitColon p).length = 3 → configureContext (some p) = .ok (.serverOnly p))
  ∧ (∀ a b c d e, pySplitColon p = [a, b, c, d, e] →
       configureContext (some p) = .ok (.withCreds (a ++ "://" ++ b ++ ":" ++ c) d e))
  ∧ ((pySplitColon p).length ≠ 3 → (pySplitColon p).length ≠ 5 →
       configureContext (some p) = .error "Invalid proxy format") := by
  refine ⟨?_, ?_, ?_, ?_, ?_⟩
  · generalize candidateProxies lines = xs
    cases xs with
    | nil => rfl
    | cons x rest => exact (List.get?_eq_get (Nat.mod_lt ix (by exact Nat.succ_pos _))).symm
  · intro h
    rw [h]
    rfl
  · intro h3
    rcases List.length_eq_three.mp h3 with ⟨a, b, c, habc⟩
    simp [configureContext, habc]
  · intro a b c d e h5
    simp [configureContext, h5]
  · intro h3 h5
    rcases hs : pySplitColon p with _ | ⟨a, _ | ⟨b, _ | ⟨c, _ | ⟨d, _ | ⟨e, _ | ⟨f, rest⟩⟩⟩⟩⟩⟩
    · simp [configureContext, hs]
    · simp [configureContext, hs]
    · simp [configureContext, hs]
    · rw [hs] at h3; simp at h3
    · simp [configureContext, hs]
    · rw [hs] at h5; simp at h5
    · simp [configureContext, hs]

/-- C8 witness: `proxy_select_and_parse` at concrete inputs — a file with
a blank line, an index that wraps around, and one proxy line of each
shape. -/
theorem proxy_select_and_parse_witness :
    randomChoice (candidateProxies ["http:1.2.3.4:8080", " ", "socks5:2.2.2.2:1080:u:p"]) 3
      = some "socks5:2.2.2.2:1080:u:p"
  ∧ configureContext (some "http:1.2.3.4:8080") = .ok (.serverOnly "http:1.2.3.4:8080")
  ∧ configureContext (some "socks5:2.2.2.2:1080:u:p")
      = .ok (.withCreds "socks5://2.2.2.2:1080" "u" "p")
  ∧ configureContext (some "a:b") = .error "Invalid proxy format" := by
  refine ⟨?_, ?_, ?_, ?_⟩
  · rw [(proxy_select_and_parse ["http:1.2.3.4:8080", " ", "socks5:2.2.2.2:1080:u:p"] 3 "x").1]
    decide
  · exact (proxy_select_and_parse [] 0 "http:1.2.3.4:8080").2.2.1 (by decide)
  · rw [(proxy_select_and_parse [] 0 "socks5:2.2.2.2:1080:u:p").2.2.2.1
      "socks5" "2.2.2.2" "1080" "u" "p" (by decide)]
    rfl
  · exact (proxy_select_and_parse [] 0 "a:b").2.2.2.2 (by decide) (by decide)

/-- C5 counterexample: with proxy support on and a malformed candidate
line in `proxies.txt`, the pool system reaches a state in which handle 1 —
present in the initial pool — is neither in the pool nor owned by any
in-flight job: its owner terminated through the pre-`try` `ValueError`
and leaked it. -/
theorem pool_leak_reachable_cex :
    PoolReachable ⟨true, 1⟩ ["http:1.2.3.4:8080:justuser"] (initPoolSystem 1 1)
      ⟨[], [JobState.leaked 1]⟩
  ∧ 1 ∈ (initPoolSystem 1 1).pool
  ∧ 1 ∉ (PoolSystem.mk [] [JobState.leaked 1]).pool
  ∧ (PoolSystem.mk [] [JobState.leaked 1]).jobs.filterMap inflightHolder = [] := by
  refine ⟨?_, by decide, by decide, by decide⟩
  have s1 : PoolStep ⟨true, 1⟩ ["http:1.2.3.4:8080:justuser"] (initPoolSystem 1 1)
      ⟨[], [JobState.holding 1]⟩ :=
    PoolStep.acquire 0 1 [] [JobState.waiting] rfl
  have s2 : PoolStep ⟨true, 1⟩ ["http:1.2.3.4:8080:justuser"]
      ⟨[], [JobState.holding 1]⟩ ⟨[], [JobState.leaked 1]⟩ :=
    PoolStep.crash 0 1 [] [JobState.holding 1] rfl (by decide)
  exact Relation.ReflTransGen.head s1 (Relation.ReflTransGen.single s2)

/-- C5 (amended): in every reachable pool state the initial `n` handles
are exactly split between the pool and the jobs keeping one away from it,
so at most `n` handles are checked out at any instant, the pool size plus
the away-count is exactly `n`, and no two distinct jobs ever keep the same
handle.  The amendment the counterexample forces: a handle away from the
pool may be owned by a worker that already TERMINATED through the
pre-`try` `ValueError` (leaked), not only by an in-flight job. -/
theorem pool_checkout_invariant (cfg : ServerConfig) (lines : List String)
    (n k : Nat) (s : PoolSystem)
    (hr : PoolReachable cfg lines (initPoolSystem n k) s) :
    (s.pool ++ s.jobs.filterMap holder).Perm (initialHandles n)
  ∧ s.pool.length + (s.jobs.filterMap holder).length = n
  ∧ (s.jobs.filterMap holder).length ≤ n
  ∧ (∀ j₁ j₂ st₁ st₂ hh, j₁ ≠ j₂ →
       s.jobs.get? j₁ = some st₁ → s.jobs.get? j₂ = some st₂ →
       holder st₁ = some hh → holder st₂ ≠ some hh) := by
  have hperm := poolReachable_perm hr
  have hlen : s.pool.length + (s.jobs.filterMap holder).length = n := by
    have hl := hperm.length_eq
    simpa [initialHandles, List.length_range'] using hl
  have hnd : (s.pool ++ s.jobs.filterMap holder).Nodup := by
    refine hperm.nodup_iff.mpr ?_
    simpa [initialHandles] using List.nodup_range' 1 n
  refine ⟨hperm, hlen, by omega, ?_⟩
  intro j₁ j₂ st₁ st₂ hh hne h₁ h₂ hold₁ hold₂
  have hfmnd : (s.jobs.filterMap holder).Nodup := hnd.of_append_right
  have hd := filterMap_perm_erase holder s.jobs j₁ st₁ h₁
  rw [hold₁] at hd
  have hmem : hh ∈ (s.jobs.eraseIdx j₁).filterMap holder :=
    List.mem_filterMap.mpr ⟨st₂, mem_eraseIdx_of_get?_ne s.jobs j₁ j₂ st₂ (Ne.symm hne) h₂, hold₂⟩
  have hcount : 2 ≤ (s.jobs.filterMap holder).count hh := by
    rw [hd.count_eq hh]
    have hpos : 0 < ((s.jobs.eraseIdx j₁).filterMap holder).count hh :=
      List.count_pos_iff.mpr hmem
    simp only [Option.toList_some, List.count_append, List.count_cons_self, List.count_nil]
    omega
  have hle : (s.jobs.filterMap holder).count hh ≤ 1 :=
    List.nodup_iff_count_le_one.mp hfmnd hh
  omega

/-- C5 witness: `pool_checkout_invariant` applied to the initial state of
a two-handle pool with one admitted job. -/
theorem pool_checkout_invariant_witness :
    PoolReachable ⟨false, 2⟩ [] (initPoolSystem 2 1) (initPoolSystem 2 1)
  ∧ (((initPoolSystem 2 1).pool ++ (initPoolSystem 2 1).jobs.filterMap holder).Perm
        (initialHandles 2)
     ∧ (initPoolSystem 2 1).pool.length
         + ((initPoolSystem 2 1).jobs.filterMap holder).length = 2
     ∧ ((initPoolSystem 2 1).jobs.filterMap holder).length ≤ 2
     ∧ (∀ j₁ j₂ st₁ st₂ hh, j₁ ≠ j₂ →
          (initPoolSystem 2 1).jobs.get? j₁ = some st₁ →
          (initPoolSystem 2 1).jobs.get? j₂ = some st₂ →
          holder st₁ = some hh → holder st₂ ≠ some hh)) :=
  ⟨Relation.ReflTransGen.refl,
   pool_checkout_invariant ⟨false, 2⟩ [] 2 1 (initPoolSystem 2 1) Relation.ReflTransGen.refl⟩

end ApiSolver
